import Mathlib

/-!
Verification of the compact socket-address codec (`src/lib.rs` of the
`compact_addr` crate).  The crate converts IPv4 / IPv6 socket addresses
to and from fixed-width compact byte arrays:

  * `SocketAddrV4` ↔ 6 bytes  (4 address octets, then the port big-endian)
  * `SocketAddrV6` ↔ 18 bytes (16 address octets, then the port big-endian)

Bytes are modelled as `Fin 256`, the 16-bit port as `Fin 65536` and the
IPv6 `flowinfo` / `scope_id` fields (Rust `u32`) as `Fin 4294967296`.
Fixed-width byte arrays are structures with one field per byte.
-/

abbrev Byte := Fin 256

abbrev U16 := Fin 65536

abbrev U32 := Fin 4294967296

/-- The four octets of an IPv4 address (`Ipv4Addr::octets`), in network
order. -/
structure Ipv4Addr where
  o0 : Byte
  o1 : Byte
  o2 : Byte
  o3 : Byte
deriving DecidableEq

/-- An IPv4 socket address (`std::net::SocketAddrV4`): address plus
16-bit port. -/
structure SocketAddrV4 where
  ip : Ipv4Addr
  port : U16
deriving DecidableEq

/-- The sixteen octets of an IPv6 address (`Ipv6Addr::octets`), in
network order. -/
structure Ipv6Addr where
  o0 : Byte
  o1 : Byte
  o2 : Byte
  o3 : Byte
  o4 : Byte
  o5 : Byte
  o6 : Byte
  o7 : Byte
  o8 : Byte
  o9 : Byte
  o10 : Byte
  o11 : Byte
  o12 : Byte
  o13 : Byte
  o14 : Byte
  o15 : Byte
deriving DecidableEq

/-- An IPv6 socket address (`std::net::SocketAddrV6`): address, 16-bit
port, and the `flowinfo` and `scope_id` fields (both `u32`), in the
argument order of `SocketAddrV6::new(ip, port, flowinfo, scope_id)`. -/
structure SocketAddrV6 where
  ip : Ipv6Addr
  port : U16
  flowinfo : U32
  scope_id : U32
deriving DecidableEq

/-- A compact IPv4 socket address: exactly 6 bytes (`[u8; 6]`). -/
structure Bytes6 where
  b0 : Byte
  b1 : Byte
  b2 : Byte
  b3 : Byte
  b4 : Byte
  b5 : Byte
deriving DecidableEq

/-- A compact IPv6 socket address: exactly 18 bytes (`[u8; 18]`). -/
structure Bytes18 where
  b0 : Byte
  b1 : Byte
  b2 : Byte
  b3 : Byte
  b4 : Byte
  b5 : Byte
  b6 : Byte
  b7 : Byte
  b8 : Byte
  b9 : Byte
  b10 : Byte
  b11 : Byte
  b12 : Byte
  b13 : Byte
  b14 : Byte
  b15 : Byte
  b16 : Byte
  b17 : Byte
deriving DecidableEq

/-- Big-endian byte pair of a 16-bit value (`u16::to_be_bytes`): the
high byte first, then the low byte. -/
def u16_to_be_bytes (p : U16) : Byte × Byte :=
  (⟨p.val / 256, by have := p.isLt; omega⟩, ⟨p.val % 256, by omega⟩)

/-- A 16-bit value from its big-endian byte pair
(`u16::from_be_bytes`). -/
def u16_from_be_bytes (hi lo : Byte) : U16 :=
  ⟨hi.val * 256 + lo.val, by have h1 := hi.isLt; have h2 := lo.isLt; omega⟩

/-- `<SocketAddrV4 as CompactAddrV4Info>::to_compact_address`: the four
address octets into positions 0–3, the port big-endian into
positions 4–5. -/
def SocketAddrV4.to_compact_address (s : SocketAddrV4) : Bytes6 :=
  { b0 := s.ip.o0
    b1 := s.ip.o1
    b2 := s.ip.o2
    b3 := s.ip.o3
    b4 := (u16_to_be_bytes s.port).1
    b5 := (u16_to_be_bytes s.port).2 }

/-- `<SocketAddrV4 as CompactAddrV4Info>::from_compact_address`:
positions 0–3 are the address octets, positions 4–5 the big-endian
port. -/
def SocketAddrV4.from_compact_address (b : Bytes6) : SocketAddrV4 :=
  { ip := { o0 := b.b0, o1 := b.b1, o2 := b.b2, o3 := b.b3 }
    port := u16_from_be_bytes b.b4 b.b5 }

/-- `<SocketAddrV6 as CompactAddrV6Info>::to_compact_address`: the
sixteen address octets into positions 0–15, the port big-endian into
positions 16–17.  `flowinfo` and `scope_id` are not encoded. -/
def SocketAddrV6.to_compact_address (s : SocketAddrV6) : Bytes18 :=
  { b0 := s.ip.o0
    b1 := s.ip.o1
    b2 := s.ip.o2
    b3 := s.ip.o3
    b4 := s.ip.o4
    b5 := s.ip.o5
    b6 := s.ip.o6
    b7 := s.ip.o7
    b8 := s.ip.o8
    b9 := s.ip.o9
    b10 := s.ip.o10
    b11 := s.ip.o11
    b12 := s.ip.o12
    b13 := s.ip.o13
    b14 := s.ip.o14
    b15 := s.ip.o15
    b16 := (u16_to_be_bytes s.port).1
    b17 := (u16_to_be_bytes s.port).2 }

/-- `<SocketAddrV6 as CompactAddrV6Info>::from_compact_address`:
positions 0–15 are the address octets, positions 16–17 the big-endian
port; the result is `SocketAddrV6::new(ip, port, 0, 0)`, so `flowinfo`
and `scope_id` are zero. -/
def SocketAddrV6.from_compact_address (b : Bytes18) : SocketAddrV6 :=
  { ip :=
      { o0 := b.b0
        o1 := b.b1
        o2 := b.b2
        o3 := b.b3
        o4 := b.b4
        o5 := b.b5
        o6 := b.b6
        o7 := b.b7
        o8 := b.b8
        o9 := b.b9
        o10 := b.b10
        o11 := b.b11
        o12 := b.b12
        o13 := b.b13
        o14 := b.b14
        o15 := b.b15 }
    port := u16_from_be_bytes b.b16 b.b17
    flowinfo := 0
    scope_id := 0 }

/-- Decomposing a 16-bit value into its big-endian bytes and
recomposing gives the value back. -/
lemma u16_from_to (p : U16) :
    u16_from_be_bytes (u16_to_be_bytes p).1 (u16_to_be_bytes p).2 = p := by
  simp only [u16_to_be_bytes, u16_from_be_bytes, Fin.ext_iff]
  omega

/-- Recomposing a 16-bit value from two bytes and decomposing it again
gives the same two bytes back. -/
lemma u16_to_from (hi lo : Byte) :
    u16_to_be_bytes (u16_from_be_bytes hi lo) = (hi, lo) := by
  have h1 := hi.isLt
  have h2 := lo.isLt
  simp only [u16_to_be_bytes, u16_from_be_bytes, Prod.mk.injEq, Fin.ext_iff]
  omega

/-- Decode after encode is the identity on IPv4 socket addresses. -/
lemma v4_decode_encode_eq (x : SocketAddrV4) :
    SocketAddrV4.from_compact_address x.to_compact_address = x := by
  simp [SocketAddrV4.to_compact_address, SocketAddrV4.from_compact_address,
    u16_from_to]

/-- Encode after decode is the identity on 6-byte compact addresses. -/
lemma v4_encode_decode_eq (b : Bytes6) :
    (SocketAddrV4.from_compact_address b).to_compact_address = b := by
  simp [SocketAddrV4.to_compact_address, SocketAddrV4.from_compact_address,
    u16_to_from]

/-- Decode after encode on an IPv6 socket address keeps the address and
port and zeroes `flowinfo` and `scope_id`. -/
lemma v6_decode_encode_eq (x : SocketAddrV6) :
    SocketAddrV6.from_compact_address x.to_compact_address
      = SocketAddrV6.mk x.ip x.port 0 0 := by
  simp [SocketAddrV6.to_compact_address, SocketAddrV6.from_compact_address,
    u16_from_to]

/-- Encode after decode is the identity on 18-byte compact addresses. -/
lemma v6_encode_decode_eq (b : Bytes18) :
    (SocketAddrV6.from_compact_address b).to_compact_address = b := by
  simp [SocketAddrV6.to_compact_address, SocketAddrV6.from_compact_address,
    u16_to_from]

/-- C1: for every IPv4 socket address `x`,
`from_compact_address (to_compact_address x) = x`: decoding the
encoding reproduces the address and port exactly. -/
theorem v4_roundtrip_decode_encode (x : SocketAddrV4) :
    SocketAddrV4.from_compact_address x.to_compact_address = x :=
  v4_decode_encode_eq x

/-- C2: for every IPv6 socket address whose `flowinfo` and `scope_id`
are zero, `from_compact_address (to_compact_address x) = x`: the
128-bit address and port round-trip exactly and the two extra fields
stay zero. -/
theorem v6_roundtrip_decode_encode (ip : Ipv6Addr) (p : U16) :
    SocketAddrV6.from_compact_address
        (SocketAddrV6.mk ip p 0 0).to_compact_address
      = SocketAddrV6.mk ip p 0 0 :=
  v6_decode_encode_eq (SocketAddrV6.mk ip p 0 0)

/-- C3: every 6-byte array decodes (totally, by the type of
`from_compact_address`) to an IPv4 socket address, and re-encoding
that address reproduces the original bytes exactly. -/
theorem v4_roundtrip_encode_decode (b : Bytes6) :
    (SocketAddrV4.from_compact_address b).to_compact_address = b :=
  v4_encode_decode_eq b

/-- C4: every 18-byte array decodes (totally, by the type of
`from_compact_address`) to an IPv6 socket address, and re-encoding
that address reproduces the original bytes exactly. -/
theorem v6_roundtrip_encode_decode (b : Bytes18) :
    (SocketAddrV6.from_compact_address b).to_compact_address = b :=
  v6_encode_decode_eq b

/-- C5: IPv4 encoding writes the four address octets in order into
positions 0–3 and the port big-endian into positions 4–5 (the two
bytes at positions 4 and 5 read as a big-endian 16-bit value give the
port); in particular 192.168.1.2 with port 34000 encodes to
`[192, 168, 1, 2, 0x84, 0xD0]`. -/
theorem v4_to_compact_layout :
    (∀ s : SocketAddrV4,
        s.to_compact_address.b0 = s.ip.o0 ∧
        s.to_compact_address.b1 = s.ip.o1 ∧
        s.to_compact_address.b2 = s.ip.o2 ∧
        s.to_compact_address.b3 = s.ip.o3 ∧
        s.to_compact_address.b4.val * 256 + s.to_compact_address.b5.val
          = s.port.val) ∧
    (SocketAddrV4.mk (Ipv4Addr.mk 192 168 1 2) 34000).to_compact_address
      = Bytes6.mk 192 168 1 2 0x84 0xD0 := by
  constructor
  · intro s
    refine ⟨rfl, rfl, rfl, rfl, ?_⟩
    simp only [SocketAddrV4.to_compact_address, u16_to_be_bytes]
    omega
  · decide

/-- C6: IPv6 encoding writes the sixteen address octets in order into
positions 0–15 and the port big-endian into positions 16–17 (the two
bytes at positions 16 and 17 read as a big-endian 16-bit value give
the port); in particular `::1` with port 80 encodes to
`[0, 0, 0, 0, 0, 0, 0, 0, 0, 0, 0, 0, 0, 0, 0, 1, 0x00, 0x50]`. -/
theorem v6_to_compact_layout :
    (∀ s : SocketAddrV6,
        s.to_compact_address.b0 = s.ip.o0 ∧
        s.to_compact_address.b1 = s.ip.o1 ∧
        s.to_compact_address.b2 = s.ip.o2 ∧
        s.to_compact_address.b3 = s.ip.o3 ∧
        s.to_compact_address.b4 = s.ip.o4 ∧
        s.to_compact_address.b5 = s.ip.o5 ∧
        s.to_compact_address.b6 = s.ip.o6 ∧
        s.to_compact_address.b7 = s.ip.o7 ∧
        s.to_compact_address.b8 = s.ip.o8 ∧
        s.to_compact_address.b9 = s.ip.o9 ∧
        s.to_compact_address.b10 = s.ip.o10 ∧
        s.to_compact_address.b11 = s.ip.o11 ∧
        s.to_compact_address.b12 = s.ip.o12 ∧
        s.to_compact_address.b13 = s.ip.o13 ∧
        s.to_compact_address.b14 = s.ip.o14 ∧
        s.to_compact_address.b15 = s.ip.o15 ∧
        s.to_compact_address.b16.val * 256 + s.to_compact_address.b17.val
          = s.port.val) ∧
    (SocketAddrV6.mk
        (Ipv6Addr.mk 0 0 0 0 0 0 0 0 0 0 0 0 0 0 0 1) 80 0 0).to_compact_address
      = Bytes18.mk 0 0 0 0 0 0 0 0 0 0 0 0 0 0 0 1 0x00 0x50 := by
  constructor
  · intro s
    refine ⟨rfl, rfl, rfl, rfl, rfl, rfl, rfl, rfl, rfl, rfl, rfl, rfl, rfl,
      rfl, rfl, rfl, ?_⟩
    simp only [SocketAddrV6.to_compact_address, u16_to_be_bytes]
    omega
  · decide

/-- C7: the IPv6 encoding does not depend on `flowinfo` or `scope_id`
(two addresses equal in address and port encode to the same 18 bytes
whatever those fields are), and decoding any 18-byte array yields zero
`flowinfo` and zero `scope_id`. -/
theorem v6_scope_flow_discard :
    (∀ (ip : Ipv6Addr) (p : U16) (f1 s1 f2 s2 : U32),
        (SocketAddrV6.mk ip p f1 s1).to_compact_address
          = (SocketAddrV6.mk ip p f2 s2).to_compact_address) ∧
    (∀ b : Bytes18,
        (SocketAddrV6.from_compact_address b).flowinfo = 0 ∧
        (SocketAddrV6.from_compact_address b).scope_id = 0) :=
  ⟨fun _ _ _ _ _ _ => rfl, fun _ => ⟨rfl, rfl⟩⟩

/-- C8: encoding is injective over (address, port): two IPv4 socket
addresses with distinct (address, port) pairs encode to distinct
6-byte arrays, and two IPv6 socket addresses with distinct
(address, port) pairs encode to distinct 18-byte arrays. -/
theorem to_compact_injective :
    (∀ x y : SocketAddrV4, (x.ip, x.port) ≠ (y.ip, y.port) →
        x.to_compact_address ≠ y.to_compact_address) ∧
    (∀ x y : SocketAddrV6, (x.ip, x.port) ≠ (y.ip, y.port) →
        x.to_compact_address ≠ y.to_compact_address) := by
  constructor
  · intro x y hne heq
    apply hne
    have h := congrArg SocketAddrV4.from_compact_address heq
    rw [v4_decode_encode_eq, v4_decode_encode_eq] at h
    rw [h]
  · intro x y hne heq
    apply hne
    have h := congrArg SocketAddrV6.from_compact_address heq
    rw [v6_decode_encode_eq, v6_decode_encode_eq] at h
    rw [SocketAddrV6.mk.injEq] at h
    rw [h.1, h.2.1]

/-- Witness for C8 at concrete inputs: two addresses differing only in
the port have distinct encodings, for each IP version. -/
theorem to_compact_injective_witness :
    (SocketAddrV4.mk (Ipv4Addr.mk 192 168 1 2) 80).to_compact_address
        ≠ (SocketAddrV4.mk (Ipv4Addr.mk 192 168 1 2) 81).to_compact_address ∧
    (SocketAddrV6.mk (Ipv6Addr.mk 0 0 0 0 0 0 0 0 0 0 0 0 0 0 0 1) 80 0 0).to_compact_address
        ≠ (SocketAddrV6.mk (Ipv6Addr.mk 0 0 0 0 0 0 0 0 0 0 0 0 0 0 0 1) 81 0 0).to_compact_address :=
  ⟨to_compact_injective.1
      (SocketAddrV4.mk (Ipv4Addr.mk 192 168 1 2) 80)
      (SocketAddrV4.mk (Ipv4Addr.mk 192 168 1 2) 81) (by decide),
    to_compact_injective.2
      (SocketAddrV6.mk (Ipv6Addr.mk 0 0 0 0 0 0 0 0 0 0 0 0 0 0 0 1) 80 0 0)
      (SocketAddrV6.mk (Ipv6Addr.mk 0 0 0 0 0 0 0 0 0 0 0 0 0 0 0 1) 81 0 0)
      (by decide)⟩

/-- C10: decoding is injective for each version: distinct 6-byte arrays
decode to distinct IPv4 socket addresses, and distinct 18-byte arrays
decode to distinct IPv6 socket addresses. -/
theorem from_compact_injective :
    (∀ b b' : Bytes6,
        SocketAddrV4.from_compact_address b = SocketAddrV4.from_compact_address b'
          → b = b') ∧
    (∀ b b' : Bytes18,
        SocketAddrV6.from_compact_address b = SocketAddrV6.from_compact_address b'
          → b = b') := by
  constructor
  · intro b b' h
    have h2 := congrArg SocketAddrV4.to_compact_address h
    rwa [v4_encode_decode_eq, v4_encode_decode_eq] at h2
  · intro b b' h
    have h2 := congrArg SocketAddrV6.to_compact_address h
    rwa [v6_encode_decode_eq, v6_encode_decode_eq] at h2

/-- Witness for C10 at a concrete input: applying the injectivity of
decoding to a pair of equal concrete byte arrays. -/
theorem from_compact_injective_witness :
    Bytes6.mk 192 168 1 2 0x84 0xD0 = Bytes6.mk 192 168 1 2 0x84 0xD0 ∧
    Bytes18.mk 0 0 0 0 0 0 0 0 0 0 0 0 0 0 0 1 0x00 0x50
      = Bytes18.mk 0 0 0 0 0 0 0 0 0 0 0 0 0 0 0 1 0x00 0x50 :=
  ⟨from_compact_injective.1 (Bytes6.mk 192 168 1 2 0x84 0xD0)
      (Bytes6.mk 192 168 1 2 0x84 0xD0) rfl,
    from_compact_injective.2
      (Bytes18.mk 0 0 0 0 0 0 0 0 0 0 0 0 0 0 0 1 0x00 0x50)
      (Bytes18.mk 0 0 0 0 0 0 0 0 0 0 0 0 0 0 0 1 0x00 0x50) rfl⟩
